import Mathlib

/-!
Shallow embedding of `src/allmydata/version_checks.py` (Tahoe-LAFS version
reconciliation engine) together with the small parts of its collaborators it
needs.  Pure Python functions become Lean functions; the ambient facts the
Python code obtains from the interpreter and the operating system (the
`verlib` parsing pipeline, `os.path` resolution, the `_auto_deps` lists, the
values imported from the package root) are collected in an explicit
environment record `Env`, so that every function here is a pure function of
its inputs and the environment.
-/

namespace VersionChecks

/-- Canonical comparable form of a version string, the tagged `Numeric`
variant of the spec's version grammar: a list of numeric components (trailing
zero components are insignificant, so the list is kept trimmed). -/
structure NormalizedVersion where
  parts : List Nat
  deriving DecidableEq, Repr

/-- Outcomes of the verlib parsing pipeline: `irrational` is
`verlib.IrrationalVersionError` (the string matches no recognized version
grammar), `other` stands for any other internal exception, recorded as the
exception's class name and message. -/
inductive VerlibError where
  | irrational (s : String)
  | other (cls msg : String)
  deriving DecidableEq, Repr

/-- Representation of the `PackagingError` raised by `normalized_version`:
its message `"could not parse %s due to %s: %s"` interpolates the context
(`what or repr(verstr)`), the original exception's class name and its
message; we keep the three interpolated values. -/
structure PackagingExc where
  context : String
  cls : String
  msg : String
  deriving DecidableEq, Repr

/-- Failure outcomes of `normalized_version`: `IrrationalVersionError` is
re-raised unchanged; any other `StandardError` is wrapped into a
`PackagingError`. -/
inductive NormError where
  | irrational (s : String)
  | packaging (e : PackagingExc)
  deriving DecidableEq, Repr

/-- Captured import failure detail recorded by the import catalog builder:
`(etype, str(emsg), last traceback frame)`, the frame being
`(filename, lineno, funcname, text)` or `None`. -/
structure TraceInfo where
  etype : String
  emsg : String
  lastFrame : Option (String × Nat × String × Option String)
  deriving DecidableEq, Repr

/-- The third slot of a catalog entry's value triple: Python stores either
`None`, a comment string, or the import-failure `trace_info` tuple there. -/
inductive CommentInfo where
  | none
  | str (s : String)
  | trace (t : TraceInfo)
  deriving DecidableEq, Repr

/-- One import-catalog entry value: `(version, location, comment)` as built
by `_get_package_versions_and_locations`. -/
structure ImpEntry where
  ver : Option String
  loc : Option String
  comment : CommentInfo
  deriving DecidableEq, Repr

/-- The manifest (pkg_resources) catalog: lowercased project name mapped to
`(version, location)`.  Python uses a dict; we use an association list whose
keys are expected to be unique. -/
abbrev PRCatalog := List (String × String × String)

/-- Warnings appended by `_cross_check`, one constructor per
`errors.append(...)` site, carrying exactly the values interpolated into the
corresponding format string. -/
inductive Warning where
  | setuptoolsDistribute (prVer prLoc : String) (impVer : Option String)
      (impComment : CommentInfo) (impLoc : Option String)
  | notFound (name : String) (impVer : Option String) (impLoc : Option String)
  | couldNotImport (name prVer prLoc : String) (impComment : CommentInfo)
  | prUnparsable (prVer name : String) (impVer impLoc : Option String)
      (prLoc : String) (exc : PackagingExc)
  | unknownVer (name : String) (impLoc : Option String) (prVer prLoc : String)
  | impUnparsable (impVer : Option String) (name : String) (impLoc : Option String)
      (prVer prLoc : String) (exc : PackagingExc)
  | mismatch (name prVer : String) (prNorm : NormalizedVersion) (prLoc : String)
      (impVer : Option String) (impNorm : NormalizedVersion) (impLoc : Option String)
  deriving DecidableEq, Repr

/-- Type of the verlib parsing pipeline
(`NormalizedVersion(suggest_normalized_version(verstr) or verstr)`), taking
the raw Python value, which may be `None`. -/
abbrev VParse := Option String → Except VerlibError NormalizedVersion

/-- Python `repr` of a string-or-None value as it appears in messages. -/
def pyRepr : Option String → String
  | Option.none => "None"
  | some s => "\x27" ++ s ++ "\x27"

/-- Python `a or b` for a string-or-None `a` (both `None` and `""` are
falsy). -/
def orTruthy (a : Option String) (b : String) : String :=
  match a with
  | some w => if w = "" then b else w
  | Option.none => b

/-- Embedding of `normalized_version(verstr, what=None)`: run the verlib
pipeline; re-raise `IrrationalVersionError` unchanged; wrap any other
internal exception into a `PackagingError` whose message interpolates
`what or repr(verstr)` and the original exception's class and message. -/
def normalized_version (parse : VParse) (verstr : Option String)
    (what : Option String) : Except NormError NormalizedVersion :=
  match parse verstr with
  | Except.ok v => Except.ok v
  | Except.error (VerlibError.irrational s) => Except.error (NormError.irrational s)
  | Except.error (VerlibError.other cls msg) =>
      Except.error (NormError.packaging ⟨orTruthy what (pyRepr verstr), cls, msg⟩)

/-- Python `str.lower()` on the character list of the string (the names it
is applied to are ASCII). -/
def pyLower (s : String) : String :=
  ⟨s.data.map Char.toLower⟩

/-- Value of a non-empty all-digit character sequence, `None` otherwise. -/
def digitsToNat (l : List Char) : Option Nat :=
  if l ≠ [] ∧ l.all Char.isDigit then
    some (l.foldl (fun a c => a * 10 + (c.toNat - 48)) 0)
  else Option.none

/-- Split a character list at every `.` (keeping empty components). -/
def splitOnDot : List Char → List (List Char)
  | [] => [[]]
  | c :: rest =>
      let r := splitOnDot rest
      if c = Char.ofNat 46 then [] :: r
      else
        match r with
        | [] => [[c]]
        | h :: t => (c :: h) :: t

/-- Dotted-numeric parse: every `.`-separated component must be a numeral. -/
def parseNumdots (s : String) : Option (List Nat) :=
  (splitOnDot s.data).mapM digitsToNat

/-- Trailing zero components are insignificant in the version grammar. -/
def dropTrailingZeros (l : List Nat) : List Nat :=
  (l.reverse.dropWhile (fun n => n = 0)).reverse

/-- Modelled from the spec: the parsing pipeline of the `util/verlib` module,
which is not among the given sources (`suggest_normalized_version` composed
with the `NormalizedVersion` constructor).  Per the spec it produces a tagged
`Numeric` variant for dotted-numeric version strings — with `"1.2"` equal to
`"1.2.0"`, so trailing zero components are trimmed — and fails with the
irrational/unparsable kind for any string matching no recognized grammar;
applying it to `None` fails like the underlying regex engine does in Python,
with a `TypeError`, which is in the "other exception" class. -/
def verlibParse : VParse := fun vo =>
  match vo with
  | Option.none => Except.error (VerlibError.other "TypeError" "expected string or buffer")
  | some s =>
      match parseNumdots s with
      | some comps => Except.ok ⟨dropTrailingZeros comps⟩
      | Option.none => Except.error (VerlibError.irrational s)

/-- Modelled from the spec: the host program's name, imported from the
package root (outside the given sources). -/
def appname : String := "tahoe-lafs"

/-- Probe result for the OpenSSL binding: the two strings returned by
`SSLeay_version` (`cflags` is `None` when that second call raises). -/
structure SSLModule where
  versionString : String
  cflags : Option String
  deriving DecidableEq, Repr

/-- Ambient facts the Python module reads from the interpreter, the
filesystem and the modules that are outside the given sources. -/
structure Env where
  /-- The verlib parsing pipeline used by `normalized_version`. -/
  parse : VParse
  /-- Composition `os.path.normpath(os.path.realpath(p))`. -/
  resolve : String → String
  /-- Composition `os.path.normcase(os.path.realpath(p))`. -/
  realcase : String → String
  /-- Function `os.path.dirname`. -/
  dirname : String → String
  /-- List `not_import_versionable` from the `_auto_deps` module. -/
  not_import_versionable : List String
  /-- List `ignorable` from the `_auto_deps` module. -/
  ignorable : List String
  /-- Value of `platform.python_version()`. -/
  python_version : String
  /-- Value of `sys.executable`. -/
  sys_executable : String
  /-- Value of `_get_platform()` (an opaque environment label per the spec). -/
  platform_str : String
  /-- The OpenSSL binding, `None` when probing it raises. -/
  ssl_probe : Option SSLModule
  /-- Value `branch` from the package root. -/
  branch : String
  /-- Value `full_version` from the package root. -/
  full_version : String

/-- The fixed `not_pkg_resourceable` skip set of `_cross_check`. -/
def not_pkg_resourceable : List String :=
  ["python", "platform", pyLower appname, "openssl"]

/-- Body of the per-entry loop of `_cross_check`, returning the warnings the
iteration appends for the entry `(nameRaw, ent)`.  The location comparisons
model `os.path.normpath(os.path.realpath(_))` equality via `Env.resolve`
mapped over the optional import location (in Python a `None` location would
make `realpath` raise; here it simply compares unequal to every path). -/
def check_entry (env : Env) (pr : PRCatalog) (nameRaw : String) (ent : ImpEntry) :
    List Warning :=
  let name := pyLower nameRaw
  if name ∈ not_pkg_resourceable then []
  else
    match pr.lookup name with
    | Option.none =>
        if name = "setuptools" then
          match pr.lookup "distribute" with
          | some (prVer, prLoc) =>
              if ¬ (some (env.resolve prLoc) = ent.loc.map env.resolve ∧
                    ent.comment = CommentInfo.str "distribute") then
                [Warning.setuptoolsDistribute prVer prLoc ent.ver ent.comment ent.loc]
              else []
          | Option.none => [Warning.notFound name ent.ver ent.loc]
        else [Warning.notFound name ent.ver ent.loc]
    | some (prVer, prLoc) =>
        if ent.ver = Option.none ∧ ent.loc = Option.none then
          [Warning.couldNotImport name prVer prLoc ent.comment]
        else if ent.ver ≠ some "unknown" ∧ some prVer = ent.ver then []
        else
          match normalized_version env.parse (some prVer) Option.none with
          | Except.error (NormError.irrational _) => []
          | Except.error (NormError.packaging e) =>
              [Warning.prUnparsable prVer name ent.ver ent.loc prLoc e]
          | Except.ok prNorm =>
              if ent.ver = some "unknown" then
                if name ∉ env.not_import_versionable then
                  [Warning.unknownVer name ent.loc prVer prLoc]
                else []
              else
                match normalized_version env.parse ent.ver Option.none with
                | Except.error (NormError.irrational _) => []
                | Except.error (NormError.packaging e) =>
                    [Warning.impUnparsable ent.ver name ent.loc prVer prLoc e]
                | Except.ok impNorm =>
                    if prVer = "unknown" ∨ prNorm ≠ impNorm then
                      if ¬ (some (env.resolve prLoc) = ent.loc.map env.resolve) then
                        [Warning.mismatch name prVer prNorm prLoc ent.ver impNorm ent.loc]
                      else []
                    else []

/-- Embedding of `_cross_check(pkg_resources_vers_and_locs,
imported_vers_and_locs_list)`: the concatenation of the warnings each entry's
loop iteration appends, in catalog order. -/
def _cross_check (env : Env) (pr : PRCatalog)
    (imported : List (String × ImpEntry)) : List Warning :=
  imported.flatMap (fun p => check_entry env pr p.1 p.2)

/-- Abstraction of a successfully imported Python module, carrying the
attributes `_get_package_versions_and_locations` inspects. -/
structure PyModule where
  /-- The `__version__` attribute (already `str()`-ed), when present. -/
  dunderVersion : Option String
  /-- The `version` attribute: a string or a tuple of numbers, when present. -/
  versionAttr : Option (String ⊕ List Int)
  /-- Whether the module has a `_distribute` attribute. -/
  hasDistribute : Bool
  /-- The `__file__` attribute. -/
  file : String
  deriving DecidableEq, Repr

/-- Outcome of `__import__(modulename)`: either the module, or the captured
`trace_info` of the `ImportError`. -/
inductive LoadResult where
  | failure (t : TraceInfo)
  | success (m : PyModule)
  deriving DecidableEq, Repr

/-- Embedding of the inner `get_version(module)` helper: prefer
`__version__`, else `version` (tuples joined with `.`), else `"unknown"`. -/
def get_version (m : PyModule) : String :=
  match m.dunderVersion with
  | some v => v
  | Option.none =>
      match m.versionAttr with
      | some (Sum.inl s) => s
      | some (Sum.inr t) => String.intercalate "." (t.map toString)
      | Option.none => "unknown"

/-- Embedding of the inner `package_dir(srcfile)` helper:
`os.path.dirname(os.path.dirname(os.path.normcase(os.path.realpath(srcfile))))`. -/
def package_dir (env : Env) (srcfile : String) : String :=
  env.dirname (env.dirname (env.realcase srcfile))

/-- Python `s.partition(" ")` restricted to the pieces before and after the
first space (the separator itself is discarded at the use site). -/
def partitionSpace (s : String) : String × String :=
  match s.splitOn " " with
  | [] => (s, "")
  | x :: rest => (x, String.intercalate " " rest)

/-- Embedding of `_extract_openssl_version(ssl_module)`: strip a leading
`"OpenSSL "`, split version from comment at the first space, and append
`", no heartbeats"` when the cflags report `-DOPENSSL_NO_HEARTBEATS`; the
returned triple has no location and drops an empty comment. -/
def _extract_openssl_version (ssl : SSLModule) : ImpEntry :=
  let ov := if ssl.versionString.startsWith "OpenSSL " then ssl.versionString.drop 8
            else ssl.versionString
  let vc := partitionSpace ov
  let comment :=
    match ssl.cflags with
    | some cf =>
        if "-DOPENSSL_NO_HEARTBEATS" ∈ cf.splitOn " " then vc.2 ++ ", no heartbeats"
        else vc.2
    | Option.none => vc.2
  ⟨some vc.1, Option.none,
    if comment = "" then CommentInfo.none else CommentInfo.str comment⟩

/-- Embedding of `_get_openssl_version()`: the probe of the OpenSSL binding
degrades to `("unknown", None, None)` when anything in it raises. -/
def _get_openssl_version (probe : Option SSLModule) : ImpEntry :=
  match probe with
  | some ssl => _extract_openssl_version ssl
  | Option.none => ⟨some "unknown", Option.none, CommentInfo.none⟩

/-- One iteration of the module branch of the builder loop: on import
failure record `(None, None, trace_info)`; on success compute the comment
(build/branch identification for the host program, `"distribute"` for a
setuptools module carrying `_distribute`), the version via `get_version`, the
location via `package_dir`, and patch an `"unknown"` version from the
manifest catalog when the manifest's resolved location agrees. -/
def import_entry (env : Env) (loader : String → LoadResult) (pr : PRCatalog)
    (pkgname modulename : String) : ImpEntry :=
  match loader modulename with
  | LoadResult.failure t => ⟨Option.none, Option.none, CommentInfo.trace t⟩
  | LoadResult.success m =>
      let comment :=
        if pkgname = appname then CommentInfo.str (env.branch ++ ": " ++ env.full_version)
        else if pkgname = "setuptools" ∧ m.hasDistribute then CommentInfo.str "distribute"
        else CommentInfo.none
      let ver := get_version m
      let loc := package_dir env m.file
      let ver2 :=
        match (if ver = "unknown" then pr.lookup pkgname else Option.none) with
        | some (prVer, prLoc) => if loc = env.realcase prLoc then prVer else ver
        | Option.none => ver
      ⟨some ver2, some loc, comment⟩

/-- The catalog-building loop of `_get_package_versions_and_locations` over
`[(appname, "allmydata")] + package_imports`: module entries go through
`import_entry`; a falsy module name selects the `python` / `platform` /
`OpenSSL` pseudo-entry branches (any other name with a falsy module name
appends nothing). -/
def build_packages (env : Env) (loader : String → LoadResult) (pr : PRCatalog)
    (package_imports : List (String × Option String)) : List (String × ImpEntry) :=
  ((appname, some "allmydata") :: package_imports).filterMap (fun pm =>
    if (pm.2.getD "") ≠ "" then
      some (pm.1, import_entry env loader pr pm.1 (pm.2.getD ""))
    else if pm.1 = "python" then
      some (pm.1, ⟨some env.python_version, some env.sys_executable, CommentInfo.none⟩)
    else if pm.1 = "platform" then
      some (pm.1, ⟨some env.platform_str, Option.none, CommentInfo.none⟩)
    else if pm.1 = "OpenSSL" then
      some (pm.1, _get_openssl_version env.ssl_probe)
    else Option.none)

/-- Embedding of the `extra_packages` computation: every manifest-catalog
record whose name matches no lowercased import-catalog name and is not in the
`ignorable` list becomes an informational pseudo-entry tagged
`"according to pkg_resources"`. -/
def extra_packages (env : Env) (pr : PRCatalog)
    (packages : List (String × ImpEntry)) : List (String × ImpEntry) :=
  let imported := packages.map (fun p => pyLower p.1)
  pr.filterMap (fun q =>
    if q.1 ∉ imported ∧ q.1 ∉ env.ignorable then
      some (q.1, ⟨some q.2.1, some q.2.2, CommentInfo.str "according to pkg_resources"⟩)
    else Option.none)

/-- Embedding of `_get_package_versions_and_locations()`: build the import
catalog; when the manifest catalog is non-empty (i.e. not a frozen build),
cross-check against the catalog as built and append the extra manifest-only
pseudo-entries to the reported list. -/
def _get_package_versions_and_locations (env : Env) (loader : String → LoadResult)
    (pr : PRCatalog) (package_imports : List (String × Option String)) :
    List (String × ImpEntry) × List Warning :=
  let packages := build_packages env loader pr package_imports
  if pr.length > 0 then
    (packages ++ extra_packages env pr packages, _cross_check env pr packages)
  else (packages, [])

/-- A concrete environment whose verlib pipeline is the modelled one and
whose path functions are the identity, used to evaluate the engine on
concrete catalogs. -/
def envC : Env :=
  { parse := verlibParse
    resolve := id
    realcase := id
    dirname := id
    not_import_versionable := ["zope.interface"]
    ignorable := ["argparse"]
    python_version := "2.7.18"
    sys_executable := "/usr/bin/python"
    platform_str := "Linux"
    ssl_probe := Option.none
    branch := "trunk"
    full_version := "1.15.0" }

/-- A concrete environment whose verlib pipeline always fails with an
exception other than `IrrationalVersionError`, exercising the
`PackagingError` wrapping paths. -/
def envO : Env :=
  { envC with parse := fun _ => Except.error (VerlibError.other "ValueError" "boom") }

/-- A concrete module loader that fails for the module key `"failmod"` and
succeeds (with a fixed module) everywhere else. -/
def loaderC : String → LoadResult := fun mn =>
  if mn = "failmod" then
    LoadResult.failure ⟨"ImportError", "No module named failmod", Option.none⟩
  else
    LoadResult.success ⟨some "9.9", Option.none, false, "/site-packages/m/m.py"⟩

theorem check_entry_length_le_one (env : Env) (pr : PRCatalog) (n : String)
    (e : ImpEntry) : (check_entry env pr n e).length ≤ 1 := by
  unfold check_entry
  by_cases h0 : pyLower n ∈ not_pkg_resourceable
  · simp [h0]
  · simp only [h0, if_false]
    cases hl : List.lookup (pyLower n) pr with
    | none =>
        by_cases h1 : pyLower n = "setuptools"
        · simp only [h1, if_true]
          cases hd : List.lookup "distribute" pr with
          | none => simp
          | some q => obtain ⟨pv, pl⟩ := q; split <;> (try split) <;> simp
        · simp [h1]
    | some q =>
        obtain ⟨pv, pl⟩ := q
        by_cases h2 : e.ver = Option.none ∧ e.loc = Option.none
        · simp [h2]
        · simp only [h2, if_false]
          by_cases h3 : e.ver ≠ some "unknown" ∧ some pv = e.ver
          · simp [h3]
          · simp only [h3, if_false]
            cases hn : normalized_version env.parse (some pv) Option.none with
            | error err => cases err <;> simp
            | ok pn =>
                by_cases h4 : e.ver = some "unknown"
                · simp only [h4, if_true]
                  split <;> simp
                · simp only [h4, if_false]
                  cases hn2 : normalized_version env.parse e.ver Option.none with
                  | error err => cases err <;> simp
                  | ok inorm => split <;> (try split) <;> (try split) <;> simp

/-- C10: every classification branch of the per-entry reconciliation loop
appends nothing or a single warning, so `_cross_check` produces at most one
warning per import-catalog entry, and never more warnings than entries. -/
theorem c10_at_most_one_warning :
    (∀ (env : Env) (pr : PRCatalog) (n : String) (e : ImpEntry),
        (check_entry env pr n e).length ≤ 1) ∧
    (∀ (env : Env) (pr : PRCatalog) (imported : List (String × ImpEntry)),
        (_cross_check env pr imported).length ≤ imported.length) := by
  refine ⟨check_entry_length_le_one, ?_⟩
  intro env pr imported
  induction imported with
  | nil => simp [_cross_check]
  | cons p rest ih =>
      simp only [_cross_check, List.flatMap_cons, List.length_append,
        List.length_cons] at ih ⊢
      have h := check_entry_length_le_one env pr p.1 p.2
      omega

/-- C2: an import-catalog entry outside the skip set whose lowercased name
is in the manifest catalog and whose import version string is byte-identical
to the manifest version string produces no warning, even when the shared
string is not parsable by the normalizer. -/
theorem c2_identical_no_warning (env : Env) (pr : PRCatalog)
    (nameRaw v prLoc : String) (loc : Option String) (c : CommentInfo)
    (hp : env.parse = verlibParse)
    (hskip : pyLower nameRaw ∉ not_pkg_resourceable)
    (hlk : pr.lookup (pyLower nameRaw) = some (v, prLoc)) :
    check_entry env pr nameRaw ⟨some v, loc, c⟩ = [] := by
  unfold check_entry
  simp only [hlk, hskip, if_false]
  by_cases hv : v = "unknown"
  · subst hv
    have h1 : normalized_version verlibParse (some "unknown") Option.none =
        Except.error (NormError.irrational "unknown") := rfl
    simp [hp, h1]
  · simp [hv]

/-- C3: an import-catalog entry outside the skip set whose lowercased name
is in the manifest catalog and which records an import failure (version and
location both absent) produces exactly the one "could not be imported"
warning carrying the manifest version, the manifest location and the
captured exception detail. -/
theorem c3_import_failed (env : Env) (pr : PRCatalog)
    (nameRaw prVer prLoc : String) (t : TraceInfo)
    (hskip : pyLower nameRaw ∉ not_pkg_resourceable)
    (hlk : pr.lookup (pyLower nameRaw) = some (prVer, prLoc)) :
    check_entry env pr nameRaw ⟨Option.none, Option.none, CommentInfo.trace t⟩ =
      [Warning.couldNotImport (pyLower nameRaw) prVer prLoc (CommentInfo.trace t)] := by
  unfold check_entry
  simp [hlk, hskip]

/-- C4: an import entry named `setuptools` that is absent from the manifest
catalog produces no warning when the manifest has a `distribute` record at
the same resolved location and the import side carries the `distribute`
comment tag. -/
theorem c4_setuptools_distribute (env : Env) (pr : PRCatalog)
    (impVer : Option String) (impLoc dv dl : String)
    (habsent : pr.lookup "setuptools" = Option.none)
    (hdist : pr.lookup "distribute" = some (dv, dl))
    (hloc : env.resolve dl = env.resolve impLoc) :
    check_entry env pr "setuptools"
      ⟨impVer, some impLoc, CommentInfo.str "distribute"⟩ = [] := by
  unfold check_entry
  have h1 : pyLower "setuptools" = "setuptools" := rfl
  simp [h1, habsent, hdist, hloc, not_pkg_resourceable, appname, pyLower]

/-- C1 (amended): for a checkable entry present in the manifest whose two
version strings both normalize successfully to unequal forms, the engine
emits the mismatch warning exactly when the two resolved install locations
differ; identical locations suppress the warning also for numeric
inequality, not only for the unknown-manifest-version sub-case. -/
theorem c1_location_suppression (env : Env) (pr : PRCatalog)
    (nameRaw prVer prLoc impVer impLoc : String) (c : CommentInfo)
    (n1 n2 : NormalizedVersion)
    (hskip : pyLower nameRaw ∉ not_pkg_resourceable)
    (hlk : pr.lookup (pyLower nameRaw) = some (prVer, prLoc))
    (hvu : impVer ≠ "unknown")
    (hn1 : env.parse (some prVer) = Except.ok n1)
    (hn2 : env.parse (some impVer) = Except.ok n2)
    (hne : n1 ≠ n2) :
    check_entry env pr nameRaw ⟨some impVer, some impLoc, c⟩ =
      if env.resolve prLoc = env.resolve impLoc then []
      else [Warning.mismatch (pyLower nameRaw) prVer n1 prLoc (some impVer) n2
              (some impLoc)] := by
  have hsv : ¬ prVer = impVer := by
    intro h
    rw [h, hn2] at hn1
    injection hn1 with h2
    exact hne h2.symm
  have hnv1 : normalized_version env.parse (some prVer) Option.none =
      Except.ok n1 := by
    unfold normalized_version; rw [hn1]
  have hnv2 : normalized_version env.parse (some impVer) Option.none =
      Except.ok n2 := by
    unfold normalized_version; rw [hn2]
  unfold check_entry
  by_cases hl : env.resolve prLoc = env.resolve impLoc <;>
    simp [hlk, hskip, hvu, hsv, hnv1, hnv2, hne, hl]

/-- C1 witness: a concrete checkable entry with normalized-unequal versions,
evaluated on both sides of the location comparison via the amended rule. -/
theorem c1_witness :
    check_entry envC [("foo", ("1.3", "/y"))] "foo"
        ⟨some "1.2", some "/x", CommentInfo.none⟩ =
      if envC.resolve "/y" = envC.resolve "/x" then []
      else [Warning.mismatch (pyLower "foo") "1.3" ⟨[1, 3]⟩ "/y" (some "1.2")
              ⟨[1, 2]⟩ (some "/x")] :=
  c1_location_suppression envC [("foo", ("1.3", "/y"))] "foo" "1.3" "/y" "1.2" "/x"
    CommentInfo.none ⟨[1, 3]⟩ ⟨[1, 2]⟩ (by decide) rfl (by decide) rfl rfl (by decide)

/-- C1 counterexample: with both versions normalizing successfully to
unequal forms (`1.2` versus `1.3`) and the two resolved install locations
identical (`/x`), the engine emits no warning for the entry — contradicting
the claim that a mismatch warning is emitted even when the locations
coincide. -/
theorem c1_counterexample :
    envC.parse (some "1.2") = Except.ok ⟨[1, 2]⟩ ∧
    envC.parse (some "1.3") = Except.ok ⟨[1, 3]⟩ ∧
    (⟨[1, 2]⟩ : NormalizedVersion) ≠ ⟨[1, 3]⟩ ∧
    envC.resolve "/x" = envC.resolve "/x" ∧
    pyLower "foo" ∉ not_pkg_resourceable ∧
    check_entry envC [("foo", ("1.3", "/x"))] "foo"
        ⟨some "1.2", some "/x", CommentInfo.none⟩ = [] :=
  ⟨rfl, rfl, by decide, rfl, by decide, rfl⟩

/-- C2 witness: byte-identical version strings that the normalizer cannot
parse still produce no warning. -/
theorem c2_witness :
    check_entry envC [("foo", ("weird ver", "/y"))] "Foo"
        ⟨some "weird ver", some "/x", CommentInfo.none⟩ = [] :=
  c2_identical_no_warning envC [("foo", ("weird ver", "/y"))] "Foo" "weird ver" "/y"
    (some "/x") CommentInfo.none rfl (by decide) rfl

/-- C3 witness: a concrete failed-import entry produces exactly the single
"could not be imported" warning. -/
theorem c3_witness :
    check_entry envC [("foo", ("1.3", "/x"))] "foo"
        ⟨Option.none, Option.none,
          CommentInfo.trace ⟨"ImportError", "nope", Option.none⟩⟩ =
      [Warning.couldNotImport "foo" "1.3" "/x"
        (CommentInfo.trace ⟨"ImportError", "nope", Option.none⟩)] :=
  c3_import_failed envC [("foo", ("1.3", "/x"))] "foo" "1.3" "/x"
    ⟨"ImportError", "nope", Option.none⟩ (by decide) rfl

/-- C4 witness: the setuptools/distribute rename case at a shared resolved
location with the matching comment tag produces no warning. -/
theorem c4_witness :
    check_entry envC [("distribute", ("0.6", "/x"))] "setuptools"
        ⟨some "0.6.1", some "/x", CommentInfo.str "distribute"⟩ = [] :=
  c4_setuptools_distribute envC [("distribute", ("0.6", "/x"))] (some "0.6.1") "/x"
    "0.6" "/x" rfl rfl rfl

/-- C6: for a checkable entry present in the manifest that does not
short-circuit on identical strings, a manifest version failing normalization
with the unparsable kind is skipped silently, while any other normalization
failure is surfaced as a single warning naming the offending manifest
version, the dependency and the wrapped exception, with no further checks
for the entry. -/
theorem c6_manifest_unparsable (env : Env) (pr : PRCatalog)
    (nameRaw prVer prLoc : String) (ent : ImpEntry)
    (hskip : pyLower nameRaw ∉ not_pkg_resourceable)
    (hlk : pr.lookup (pyLower nameRaw) = some (prVer, prLoc))
    (hfail : ¬(ent.ver = Option.none ∧ ent.loc = Option.none))
    (hsc : ¬(ent.ver ≠ some "unknown" ∧ some prVer = ent.ver)) :
    (∀ s, env.parse (some prVer) = Except.error (VerlibError.irrational s) →
        check_entry env pr nameRaw ent = []) ∧
    (∀ cls msg, env.parse (some prVer) = Except.error (VerlibError.other cls msg) →
        check_entry env pr nameRaw ent =
          [Warning.prUnparsable prVer (pyLower nameRaw) ent.ver ent.loc prLoc
            ⟨pyRepr (some prVer), cls, msg⟩]) := by
  constructor
  · intro s h
    have hnv : normalized_version env.parse (some prVer) Option.none =
        Except.error (NormError.irrational s) := by
      unfold normalized_version; rw [h]
    unfold check_entry
    simp [hlk, hskip, hfail, hsc, hnv]
  · intro cls msg h
    have hnv : normalized_version env.parse (some prVer) Option.none =
        Except.error (NormError.packaging ⟨pyRepr (some prVer), cls, msg⟩) := by
      unfold normalized_version; rw [h]; rfl
    unfold check_entry
    simp [hlk, hskip, hfail, hsc, hnv]

/-- C6 witness: a concrete unparsable manifest version is skipped silently;
a pipeline failing with a non-unparsable exception yields the surfaced
warning carrying the wrapped exception. -/
theorem c6_witness :
    check_entry envC [("foo", ("not a version", "/p"))] "foo"
        ⟨some "1.2", some "/q", CommentInfo.none⟩ = [] ∧
    check_entry envO [("foo", ("1.3", "/p"))] "foo"
        ⟨some "1.2", some "/q", CommentInfo.none⟩ =
      [Warning.prUnparsable "1.3" "foo" (some "1.2") (some "/q") "/p"
        ⟨pyRepr (some "1.3"), "ValueError", "boom"⟩] :=
  ⟨(c6_manifest_unparsable envC [("foo", ("not a version", "/p"))] "foo"
      "not a version" "/p" ⟨some "1.2", some "/q", CommentInfo.none⟩ (by decide) rfl
      (by decide) (by decide)).1 "not a version" rfl,
   (c6_manifest_unparsable envO [("foo", ("1.3", "/p"))] "foo" "1.3" "/p"
      ⟨some "1.2", some "/q", CommentInfo.none⟩ (by decide) rfl (by decide)
      (by decide)).2 "ValueError" "boom" rfl⟩

/-- C7: for a checkable entry present in the manifest whose manifest version
normalizes successfully and whose import version string is exactly
`"unknown"`, the engine emits exactly one could-not-determine-version
warning when the name is outside the unversionable allow-list, and nothing
when it is in the list. -/
theorem c7_unknown_import_version (env : Env) (pr : PRCatalog)
    (nameRaw prVer prLoc : String) (loc : Option String) (c : CommentInfo)
    (n : NormalizedVersion)
    (hskip : pyLower nameRaw ∉ not_pkg_resourceable)
    (hlk : pr.lookup (pyLower nameRaw) = some (prVer, prLoc))
    (hn : env.parse (some prVer) = Except.ok n) :
    (pyLower nameRaw ∉ env.not_import_versionable →
        check_entry env pr nameRaw ⟨some "unknown", loc, c⟩ =
          [Warning.unknownVer (pyLower nameRaw) loc prVer prLoc]) ∧
    (pyLower nameRaw ∈ env.not_import_versionable →
        check_entry env pr nameRaw ⟨some "unknown", loc, c⟩ = []) := by
  have hnv : normalized_version env.parse (some prVer) Option.none =
      Except.ok n := by
    unfold normalized_version; rw [hn]
  constructor <;> intro hm <;> unfold check_entry <;> simp [hlk, hskip, hnv, hm]

/-- C7 witness: a concrete unknown-version entry warns outside the
allow-list and is silent for a name in the allow-list. -/
theorem c7_witness :
    check_entry envC [("foo", ("1.3", "/p"))] "foo"
        ⟨some "unknown", some "/q", CommentInfo.none⟩ =
      [Warning.unknownVer "foo" (some "/q") "1.3" "/p"] ∧
    check_entry envC [("zope.interface", ("1.3", "/p"))] "zope.interface"
        ⟨some "unknown", some "/q", CommentInfo.none⟩ = [] :=
  ⟨(c7_unknown_import_version envC [("foo", ("1.3", "/p"))] "foo" "1.3" "/p"
      (some "/q") CommentInfo.none ⟨[1, 3]⟩ (by decide) rfl rfl).1 (by decide),
   (c7_unknown_import_version envC [("zope.interface", ("1.3", "/p"))]
      "zope.interface" "1.3" "/p" (some "/q") CommentInfo.none ⟨[1, 3]⟩ (by decide)
      rfl rfl).2 (by decide)⟩

/-- C8: `normalized_version` wraps any non-unparsable internal failure into
a `PackagingError` carrying the supplied context — or the repr of the
version string when no context is given — together with the original
exception's class and message, and propagates the unparsable kind
unchanged. -/
theorem c8_normalized_version_errors (parse : VParse) (verstr what : Option String) :
    (∀ s, parse verstr = Except.error (VerlibError.irrational s) →
        normalized_version parse verstr what =
          Except.error (NormError.irrational s)) ∧
    (∀ cls msg, parse verstr = Except.error (VerlibError.other cls msg) →
        normalized_version parse verstr what =
          Except.error (NormError.packaging
            ⟨orTruthy what (pyRepr verstr), cls, msg⟩)) := by
  constructor
  · intro s h; unfold normalized_version; rw [h]
  · intro cls msg h; unfold normalized_version; rw [h]

/-- C8 witness: the modelled pipeline propagates the unparsable kind for a
concrete irrational string, and a pipeline failing with a non-unparsable
exception is wrapped with the repr of the version string as context. -/
theorem c8_witness :
    normalized_version verlibParse (some "abc") Option.none =
      Except.error (NormError.irrational "abc") ∧
    normalized_version (fun _ => Except.error (VerlibError.other "ValueError" "bad"))
        (some "1.2") Option.none =
      Except.error (NormError.packaging ⟨pyRepr (some "1.2"), "ValueError", "bad"⟩) :=
  ⟨(c8_normalized_version_errors verlibParse (some "abc") Option.none).1 "abc" rfl,
   (c8_normalized_version_errors
      (fun _ => Except.error (VerlibError.other "ValueError" "bad"))
      (some "1.2") Option.none).2 "ValueError" "bad" rfl⟩

theorem extra_countP_zero (env : Env) (packages : List (String × ImpEntry))
    (name : String) :
    ∀ pr : PRCatalog, name ∉ pr.map Prod.fst →
      (extra_packages env pr packages).countP (fun q => q.1 == name) = 0 := by
  intro pr h
  simp only [extra_packages, List.countP_filterMap]
  apply List.countP_eq_zero.mpr
  intro q hq
  have hqn : ¬ q.1 = name := by
    intro hh
    exact h (hh ▸ List.mem_map_of_mem Prod.fst hq)
  by_cases hc : q.1 ∉ packages.map (fun p => pyLower p.1) ∧ q.1 ∉ env.ignorable
  · rw [if_pos hc]
    simp [hqn]
  · rw [if_neg hc]
    simp

theorem extra_countP_one (env : Env) (packages : List (String × ImpEntry))
    (name v l : String) :
    ∀ pr : PRCatalog, (pr.map Prod.fst).Nodup → (name, (v, l)) ∈ pr →
      name ∉ packages.map (fun p => pyLower p.1) → name ∉ env.ignorable →
      (extra_packages env pr packages).countP (fun q => q.1 == name) = 1 := by
  intro pr
  induction pr with
  | nil => intro _ hmem; cases hmem
  | cons q rest ih =>
      intro hnd hmem hun hig
      simp only [List.map_cons, List.nodup_cons] at hnd
      rcases List.mem_cons.mp hmem with heq | hmem2
      · subst heq
        have hz := extra_countP_zero env packages name rest hnd.1
        simp only [extra_packages, List.countP_filterMap] at hz ⊢
        rw [List.countP_cons, hz]
        rw [if_pos (⟨hun, hig⟩ : _ ∧ _)]
        simp
      · have hq1 : ¬ q.1 = name := by
          intro hh
          exact hnd.1 (hh ▸ List.mem_map_of_mem Prod.fst hmem2)
        have hrec := ih hnd.2 hmem2 hun hig
        simp only [extra_packages, List.countP_filterMap] at hrec ⊢
        rw [List.countP_cons, hrec]
        by_cases hc : q.1 ∉ packages.map (fun p => pyLower p.1) ∧ q.1 ∉ env.ignorable
        · rw [if_pos hc]
          simp [hq1]
        · rw [if_neg hc]
          simp

theorem extra_countP_zero_allowed (env : Env) (packages : List (String × ImpEntry))
    (name : String)
    (h : name ∈ env.ignorable ∨ name ∈ packages.map (fun p => pyLower p.1)) :
    ∀ pr : PRCatalog,
      (extra_packages env pr packages).countP (fun q => q.1 == name) = 0 := by
  intro pr
  simp only [extra_packages, List.countP_filterMap]
  apply List.countP_eq_zero.mpr
  intro q hq
  by_cases hqn : q.1 = name
  · have hc : ¬(q.1 ∉ packages.map (fun p => pyLower p.1) ∧ q.1 ∉ env.ignorable) := by
      rw [hqn]
      rcases h with h | h
      · exact fun hx => hx.2 h
      · exact fun hx => hx.1 h
    rw [if_neg hc]
    simp
  · by_cases hc : q.1 ∉ packages.map (fun p => pyLower p.1) ∧ q.1 ∉ env.ignorable
    · rw [if_pos hc]
      simp [hqn]
    · rw [if_neg hc]
      simp

/-- C5: a manifest-catalog record whose name matches no lowercased
import-catalog name and is not in the `ignorable` allow-list contributes
exactly one informational pseudo-entry carrying its version and location
(for any catalog order with unique manifest keys), and that pseudo-entry is
appended to the reported catalog; a name in the allow-list, or one matched
by an import entry, contributes nothing. -/
theorem c5_extra_packages (env : Env) (packages : List (String × ImpEntry))
    (pr : PRCatalog) (name v l : String)
    (hnd : (pr.map Prod.fst).Nodup)
    (hmem : (name, (v, l)) ∈ pr)
    (hun : name ∉ packages.map (fun p => pyLower p.1))
    (hig : name ∉ env.ignorable) :
    (extra_packages env pr packages).countP (fun q => q.1 == name) = 1 ∧
    (name, (⟨some v, some l, CommentInfo.str "according to pkg_resources"⟩ :
        ImpEntry)) ∈ extra_packages env pr packages ∧
    (∀ (loader : String → LoadResult) (pis : List (String × Option String)),
        build_packages env loader pr pis = packages →
        (name, (⟨some v, some l, CommentInfo.str "according to pkg_resources"⟩ :
            ImpEntry)) ∈ (_get_package_versions_and_locations env loader pr pis).1) ∧
    (∀ name2, name2 ∈ env.ignorable ∨ name2 ∈ packages.map (fun p => pyLower p.1) →
        (extra_packages env pr packages).countP (fun q => q.1 == name2) = 0) := by
  have hmemE : (name, (⟨some v, some l,
      CommentInfo.str "according to pkg_resources"⟩ : ImpEntry)) ∈
      extra_packages env pr packages := by
    simp only [extra_packages, List.mem_filterMap]
    exact ⟨(name, (v, l)), hmem, by simp [hun, hig]⟩
  refine ⟨extra_countP_one env packages name v l pr hnd hmem hun hig, hmemE, ?_, ?_⟩
  · intro loader pis hbp
    have hpos : 0 < pr.length := List.length_pos.mpr (List.ne_nil_of_mem hmem)
    simp only [_get_package_versions_and_locations, hpos, if_pos, gt_iff_lt]
    rw [hbp]
    exact List.mem_append_right _ hmemE
  · intro name2 h2
    exact extra_countP_zero_allowed env packages name2 h2 pr

/-- C5 witness: with one matched, one ignorable and one unmatched manifest
record, the unmatched one contributes exactly one pseudo-entry with its
version and location, and the ignorable one contributes nothing. -/
theorem c5_witness :
    (extra_packages envC
        [("bar", ("2.0", "/b")), ("argparse", ("1.0", "/a")), ("foo", ("1.0", "/f"))]
        [("Foo", ⟨some "1.0", some "/f", CommentInfo.none⟩)]).countP
      (fun q => q.1 == "bar") = 1 ∧
    ("bar", (⟨some "2.0", some "/b", CommentInfo.str "according to pkg_resources"⟩ :
        ImpEntry)) ∈ extra_packages envC
        [("bar", ("2.0", "/b")), ("argparse", ("1.0", "/a")), ("foo", ("1.0", "/f"))]
        [("Foo", ⟨some "1.0", some "/f", CommentInfo.none⟩)] ∧
    (extra_packages envC
        [("bar", ("2.0", "/b")), ("argparse", ("1.0", "/a")), ("foo", ("1.0", "/f"))]
        [("Foo", ⟨some "1.0", some "/f", CommentInfo.none⟩)]).countP
      (fun q => q.1 == "argparse") = 0 :=
  have h := c5_extra_packages envC
    [("Foo", ⟨some "1.0", some "/f", CommentInfo.none⟩)]
    [("bar", ("2.0", "/b")), ("argparse", ("1.0", "/a")), ("foo", ("1.0", "/f"))]
    "bar" "2.0" "/b" (by decide) (by decide) (by decide) (by decide)
  ⟨h.1, h.2.1, h.2.2.2 "argparse" (Or.inl (by decide))⟩

theorem import_entry_failure (env : Env) (loader : String → LoadResult)
    (pr : PRCatalog) (pkgname mn : String) (t : TraceInfo)
    (h : loader mn = LoadResult.failure t) :
    import_entry env loader pr pkgname mn =
      ⟨Option.none, Option.none, CommentInfo.trace t⟩ := by
  unfold import_entry; rw [h]

theorem build_entry_trace (env : Env) (loader : String → LoadResult)
    (pr : PRCatalog) (pis : List (String × Option String)) :
    ∀ p ∈ build_packages env loader pr pis, ∀ t,
      p.2.comment = CommentInfo.trace t →
      p.2.ver = Option.none ∧ p.2.loc = Option.none := by
  intro p hp t ht
  simp only [build_packages, List.mem_filterMap] at hp
  obtain ⟨pm, hpm, hf⟩ := hp
  by_cases h1 : (pm.2.getD "") ≠ ""
  · rw [if_pos h1] at hf
    injection hf with hf2
    subst hf2
    cases hl : loader (pm.2.getD "") with
    | failure t2 =>
        have he := import_entry_failure env loader pr pm.1 (pm.2.getD "") t2 hl
        simp [he]
    | success m =>
        exfalso
        simp only [import_entry, hl] at ht
        repeat' split at ht
        all_goals simp_all
  · rw [if_neg h1] at hf
    by_cases h2 : pm.1 = "python"
    · rw [if_pos h2] at hf
      injection hf with hf2
      subst hf2
      simp at ht
    · rw [if_neg h2] at hf
      by_cases h3 : pm.1 = "platform"
      · rw [if_pos h3] at hf
        injection hf with hf2
        subst hf2
        simp at ht
      · rw [if_neg h3] at hf
        by_cases h4 : pm.1 = "OpenSSL"
        · rw [if_pos h4] at hf
          injection hf with hf2
          subst hf2
          exfalso
          cases hp2 : env.ssl_probe with
          | none => simp [_get_openssl_version, hp2] at ht
          | some ssl =>
              simp only [_get_openssl_version, hp2, _extract_openssl_version] at ht
              repeat' split at ht
              all_goals simp_all
        · rw [if_neg h4] at hf
          cases hf

/-- C9: an import-catalog entry the builder records for a module whose load
fails has no version and no location, with the captured failure detail
stored in its comment slot; and across the whole built catalog (extra
manifest pseudo-entries included) an entry carrying failure detail always
has version and location absent. -/
theorem c9_failure_entry_invariant :
    (∀ (env : Env) (loader : String → LoadResult) (pr : PRCatalog)
        (pkgname mn : String) (t : TraceInfo),
        loader mn = LoadResult.failure t →
        import_entry env loader pr pkgname mn =
          ⟨Option.none, Option.none, CommentInfo.trace t⟩) ∧
    (∀ (env : Env) (loader : String → LoadResult) (pr : PRCatalog)
        (pis : List (String × Option String)) (p : String × ImpEntry),
        p ∈ (_get_package_versions_and_locations env loader pr pis).1 →
        ∀ t, p.2.comment = CommentInfo.trace t →
          p.2.ver = Option.none ∧ p.2.loc = Option.none) := by
  refine ⟨import_entry_failure, ?_⟩
  intro env loader pr pis p hp t ht
  simp only [_get_package_versions_and_locations] at hp
  by_cases hpr : 0 < pr.length
  · simp only [hpr, if_pos, gt_iff_lt] at hp
    rcases List.mem_append.mp hp with h | h
    · exact build_entry_trace env loader pr pis p h t ht
    · exfalso
      simp only [extra_packages, List.mem_filterMap] at h
      obtain ⟨q, _, hq⟩ := h
      split at hq
      · injection hq with hq2
        subst hq2
        simp at ht
      · cases hq
  · simp only [hpr, if_neg, gt_iff_lt] at hp
    exact build_entry_trace env loader pr pis p hp t ht

/-- C9 witness: a concrete failed load is recorded with absent version and
location and the captured trace detail. -/
theorem c9_witness :
    import_entry envC loaderC [] "foopkg" "failmod" =
      ⟨Option.none, Option.none,
        CommentInfo.trace ⟨"ImportError", "No module named failmod", Option.none⟩⟩ :=
  c9_failure_entry_invariant.1 envC loaderC [] "foopkg" "failmod"
    ⟨"ImportError", "No module named failmod", Option.none⟩ rfl

end VersionChecks
